import Mathlib

/-!
Verification of the source-location-deduction layer (remote.go) of the
dependency-resolution engine.  The Go regular expressions are transcribed into
a small regex AST evaluated by a backtracking matcher with Perl-style
leftmost-first semantics and capture groups (the semantics of Go's
`regexp.FindStringSubmatch` with `^...$`-anchored patterns).  Each matcher's
`deduceRoot`/`deduceSource` is then translated directly; closures (futures) are
defunctionalized into the data they capture.
-/

/-- Capture-group store: most recent capture of a group sits first. -/
abbrev Caps := List (Nat × List Char)

/-- Regex AST covering the constructs used by remote.go's patterns. -/
inductive RE where
  | eps : RE
  | cls : (Char → Bool) → RE
  | lit : List Char → RE
  | cat : RE → RE → RE
  | alt : RE → RE → RE
  | star : RE → RE
  | starL : RE → RE
  | group : Nat → RE → RE

/-- Backtracking matcher in CPS; `alt` tries the left branch first, `star` is
greedy, `starL` lazy (shortest first) — Go/Perl leftmost-first submatch
semantics.  Fuel bounds the recursion; `reMatch` supplies a generous amount. -/
def RE.mrun (fuel : Nat) (r : RE) (s : List Char) (caps : Caps)
    (k : List Char → Caps → Option Caps) : Option Caps :=
  match fuel with
  | 0 => none
  | fuel + 1 =>
    match r with
    | .eps => k s caps
    | .cls p =>
      match s with
      | [] => none
      | c :: s' => if p c then k s' caps else none
    | .lit cs => if cs.isPrefixOf s then k (s.drop cs.length) caps else none
    | .cat r1 r2 => RE.mrun fuel r1 s caps (fun s' caps' => RE.mrun fuel r2 s' caps' k)
    | .alt r1 r2 =>
      match RE.mrun fuel r1 s caps k with
      | some res => some res
      | none => RE.mrun fuel r2 s caps k
    | .star r1 =>
      match RE.mrun fuel r1 s caps (fun s' caps' =>
              if s'.length < s.length then RE.mrun fuel (.star r1) s' caps' k else none) with
      | some res => some res
      | none => k s caps
    | .starL r1 =>
      match k s caps with
      | some res => some res
      | none =>
        RE.mrun fuel r1 s caps (fun s' caps' =>
          if s'.length < s.length then RE.mrun fuel (.starL r1) s' caps' k else none)
    | .group n r1 =>
      RE.mrun fuel r1 s caps (fun s' caps' =>
        k s' ((n, s.take (s.length - s'.length)) :: caps'))

/-- `r?` (greedy). -/
def RE.opt (r : RE) : RE := .alt r .eps

/-- `r+`. -/
def RE.plus (r : RE) : RE := .cat r (.star r)

/-- `r{0,2}`. -/
def RE.rep02 (r : RE) : RE := RE.opt (.cat r (RE.opt r))

/-- Literal from a string. -/
def RE.strLit (s : String) : RE := .lit s.data

/-- Sequence of regexes. -/
def RE.seq : List RE → RE
  | [] => .eps
  | [r] => r
  | r :: rs => .cat r (RE.seq rs)

/-- Anchored whole-string match (the Go patterns are `^...$`), returning the
capture store on success. -/
def reMatch (r : RE) (s : String) : Option Caps :=
  RE.mrun 1000000 r s.data [] (fun rest caps => if rest.isEmpty then some caps else none)

/-- Submatch `n`; an unmatched group reads as the empty string, exactly as a Go
`FindStringSubmatch` slot does for our purposes. -/
def capt (caps : Caps) (n : Nat) : String :=
  match caps.find? (fun p => p.1 == n) with
  | some p => String.mk p.2
  | none => ""

/-! ### Character classes of the remote.go patterns -/

def chIn (lo hi c : Char) : Bool := Nat.ble lo.toNat c.toNat && Nat.ble c.toNat hi.toNat

def isAZ (c : Char) : Bool := chIn 'A' 'Z' c
def isaz (c : Char) : Bool := chIn 'a' 'z' c
def is09 (c : Char) : Bool := chIn '0' '9' c
def is19 (c : Char) : Bool := chIn '1' '9' c
def isAlnumC (c : Char) : Bool := isAZ c || isaz c || is09 c

/-- `[a-zA-Z0-9]` then `[-a-zA-Z0-9]` (gopkg.in user segment). -/
def gpinUserRestC (c : Char) : Bool := c == '-' || isAlnumC c
/-- `[a-zA-Z]` (gopkg.in package-name head). -/
def alphaC (c : Char) : Bool := isAZ c || isaz c
/-- `[-.a-zA-Z0-9]` (gopkg.in package-name tail / trailing segment tail). -/
def gpinNameRestC (c : Char) : Bool := c == '-' || c == '.' || isAlnumC c
/-- `[A-Za-z0-9_.\-]` (bitbucket names, vcs-extension trailing segments). -/
def wordDotDashC (c : Char) : Bool := isAlnumC c || c == '_' || c == '.' || c == '-'
/-- `[a-z0-9.\-]` (vcs-extension host part). -/
def hostC (c : Char) : Bool := isaz c || is09 c || c == '.' || c == '-'
/-- `[A-Za-z0-9_.\x2d/~]` (vcs-extension repo path, lazily matched; `\x2d` is
the escaped dash of the Go literal). -/
def repoPathC (c : Char) : Bool := wordDotDashC c || c == '/' || c == '~'
/-- `[a-zA-Z0-9_]` (scp user). -/
def scpUserC (c : Char) : Bool := isAlnumC c || c == '_'
/-- `[a-zA-Z0-9._-]` (scp host). -/
def scpHostC (c : Char) : Bool := isAlnumC c || c == '.' || c == '_' || c == '-'
/-- `.` without the s flag: any character but newline. -/
def anyNotNL (c : Char) : Bool := !(c == '\n')
/-- `[A-Za-z0-9-]` (pathvld leading/host segments). -/
def pvHeadC (c : Char) : Bool := isAlnumC c || c == '-'
/-- `[A-Za-z0-9-_.~]` (pathvld path segments). -/
def pvSegC (c : Char) : Bool := isAlnumC c || c == '-' || c == '_' || c == '.' || c == '~'

/-! ### The patterns

Transcriptions of the regex literals of remote.go, with the same capture-group
numbering that `FindStringSubmatch` produces (group 0, the whole match, is not
stored; it is never consulted by the code). -/

/-- `gpinNewRegex`:
`^(?P<root>gopkg\.in/(?:([a-zA-Z0-9][-a-zA-Z0-9]+)/)?([a-zA-Z][-.a-zA-Z0-9]*)\.((?:v0|v[1-9][0-9]*)(?:\.0|\.[1-9][0-9]*){0,2}(-unstable)?)(?:\.git)?)((?:/[a-zA-Z0-9][-.a-zA-Z0-9]*)*)$`
Groups: 1 root, 2 user, 3 name, 4 version, 5 `-unstable`, 6 trailing. -/
def gpinNewRegex : RE :=
  .cat
    (.group 1 (RE.seq [
      RE.strLit "gopkg.in/",
      RE.opt (RE.seq [
        .group 2 (.cat (.cls isAlnumC) (RE.plus (.cls gpinUserRestC))),
        RE.strLit "/"]),
      .group 3 (.cat (.cls alphaC) (.star (.cls gpinNameRestC))),
      RE.strLit ".",
      .group 4 (RE.seq [
        .alt (RE.strLit "v0") (RE.seq [RE.strLit "v", .cls is19, .star (.cls is09)]),
        RE.rep02 (.alt (RE.strLit ".0")
                       (RE.seq [RE.strLit ".", .cls is19, .star (.cls is09)])),
        RE.opt (.group 5 (RE.strLit "-unstable"))]),
      RE.opt (RE.strLit ".git")]))
    (.group 6 (.star (RE.seq [RE.strLit "/", .cls isAlnumC, .star (.cls gpinNameRestC)])))

/-- `bbRegex`:
`^(?P<root>bitbucket\.org/(?P<bitname>[A-Za-z0-9_.\-]+/[A-Za-z0-9_.\-]+))((?:/[A-Za-z0-9_.\-]+)*)$`
Groups: 1 root, 2 bitname, 3 trailing. -/
def bbRegex : RE :=
  .cat
    (.group 1 (RE.seq [
      RE.strLit "bitbucket.org/",
      .group 2 (RE.seq [
        RE.plus (.cls wordDotDashC), RE.strLit "/", RE.plus (.cls wordDotDashC)])]))
    (.group 3 (.star (.cat (RE.strLit "/") (RE.plus (.cls wordDotDashC)))))

/-- `vcsExtensionRegex`:
`^(?P<root>(?P<repo>([a-z0-9.\-]+\.)+[a-z0-9.\-]+(:[0-9]+)?/[A-Za-z0-9_.\x2d/~]*?)\.(?P<vcs>bzr|git|hg|svn))((?:/[A-Za-z0-9_.\-]+)*)$`
(`\x2d` stands for the escaped dash of the Go literal.)
Groups: 1 root, 2 repo, 3 host-dot part, 4 port, 5 vcs, 6 trailing. -/
def vcsExtensionRegex : RE :=
  .cat
    (.group 1 (RE.seq [
      .group 2 (RE.seq [
        RE.plus (.group 3 (.cat (RE.plus (.cls hostC)) (RE.strLit "."))),
        RE.plus (.cls hostC),
        RE.opt (.group 4 (.cat (RE.strLit ":") (RE.plus (.cls is09)))),
        RE.strLit "/",
        .starL (.cls repoPathC)]),
      RE.strLit ".",
      .group 5 (.alt (RE.strLit "bzr")
                 (.alt (RE.strLit "git") (.alt (RE.strLit "hg") (RE.strLit "svn"))))]))
    (.group 6 (.star (.cat (RE.strLit "/") (RE.plus (.cls wordDotDashC)))))

/-- `scpSyntaxRe`: `^([a-zA-Z0-9_]+)@([a-zA-Z0-9._-]+):(.*)$`.
Groups: 1 user, 2 host, 3 rest. -/
def scpSyntaxRe : RE :=
  RE.seq [
    .group 1 (RE.plus (.cls scpUserC)), RE.strLit "@",
    .group 2 (RE.plus (.cls scpHostC)), RE.strLit ":",
    .group 3 (.star (.cls anyNotNL))]

/-- `pathvld`: `^([A-Za-z0-9-]+)(\.[A-Za-z0-9-]+)+(/[A-Za-z0-9-_.~]+)*$`. -/
def pathvld : RE :=
  RE.seq [
    .group 1 (RE.plus (.cls pvHeadC)),
    RE.plus (.group 2 (.cat (RE.strLit ".") (RE.plus (.cls pvHeadC)))),
    .star (.group 3 (.cat (RE.strLit "/") (RE.plus (.cls pvSegC))))]

/-! ### Data model -/

/-- Errors are the `fmt.Errorf` messages. -/
abbrev Err := String

/-- The slice of `*url.URL` that remote.go consults: scheme, user (the empty
string models a nil `User`, whose `Username()` is `""`), host and path. -/
structure URL where
  scheme : String
  user : String
  host : String
  path : String
deriving DecidableEq, Repr

/-- Opaque handle produced by the external "try" collaborator. -/
structure source where
  tag : Nat
deriving DecidableEq, Repr

/-- Opaque analyzer handle, passed through unexamined. -/
structure ProjectAnalyzer where
  tag : Nat
deriving DecidableEq, Repr

/-- The `maybeSource` interface: a speculative candidate (or, for
`maybeSources`, an ordered list of them).  `nilSource` is the zero value of an
interface slot, as left by `make(maybeSources, n)` before being written. -/
inductive maybeSource where
  | maybeGitSource (url : URL)
  | maybeBzrSource (url : URL)
  | maybeHgSource (url : URL)
  | nilSource
  | maybeSources (srcs : List maybeSource)

def gitSchemes : List String := ["https", "ssh", "git", "http"]
def bzrSchemes : List String := ["https", "bzr+ssh", "bzr", "http"]
def hgSchemes : List String := ["https", "ssh", "http"]
def svnSchemes : List String := ["https", "http", "svn", "svn+ssh"]

/-- `validateVCSScheme`; the `default` arm of the Go switch panics, modelled as
`none` (every in-repo call site passes one of the four literals). -/
def validateVCSScheme (scheme typ : String) : Option Bool :=
  if typ = "git" then some (gitSchemes.contains scheme)
  else if typ = "bzr" then some (bzrSchemes.contains scheme)
  else if typ = "hg" then some (hgSchemes.contains scheme)
  else if typ = "svn" then some (svnSchemes.contains scheme)
  else none

/-- `strings.HasSuffix`. -/
def hasSuffixStr (s suffix : String) : Bool := suffix.data.isSuffixOf s.data

/-- `strings.Contains(s, ".")` (the only Contains call has the single-character
needle `"."`). -/
def strContainsChar (s : String) (c : Char) : Bool := s.data.contains c

/-- `strings.TrimPrefix` (removes one occurrence of the prefix, if present). -/
def trimPrefixOnce (s p : String) : String :=
  if p.data.isPrefixOf s.data then String.mk (s.data.drop p.data.length) else s

/-- `v[4][:strings.Index(v[4], ".")]`: the version string up to its first dot. -/
def takeBeforeDot (s : String) : String :=
  String.mk (s.data.takeWhile (fun c => !(c == '.')))

/-- Result of a matcher's `deduceSource`.  `ok` holds the `maybeSource` handed
to `sourceFutureFactory` (the factory closure defunctionalized to the candidate
data it captures); `crash` models a Go runtime panic. -/
inductive SrcOutcome where
  | ok (mb : maybeSource)
  | failure (e : Err)
  | crash (msg : String)

/-! ### bitbucketMatcher -/

/-- `bitbucketMatcher.deduceRoot`; the returned `simpleStringFuture` is
defunctionalized to the string it yields. -/
def bitbucketDeduceRoot (path : String) : Except Err String :=
  match reMatch bbRegex path with
  | none => .error (path ++ " is not a valid path for a source on bitbucket.org")
  | some v => .ok ("bitbucket.org/" ++ capt v 2)

/-- `isgit` of `bitbucketMatcher.deduceSource` (computed on `u.Path` after the
`u.Path = v[2]` assignment, and on `u.User.Username()`). -/
def bbIsGit (upath uuser : String) : Bool := hasSuffixStr upath ".git" || uuser == "git"

/-- `ishg` of `bitbucketMatcher.deduceSource`. -/
def bbIsHg (upath uuser : String) : Bool := hasSuffixStr upath ".hg" || uuser == "hg"

/-- `bitbucketMatcher.deduceSource`.  The two `validateVCSScheme` calls pass the
literal kinds `"git"`/`"hg"`, so their panicking default arm is unreachable and
`Option.getD false` reads off the computed Bool exactly. -/
def bitbucketDeduceSource (path : String) (u : URL) : SrcOutcome :=
  match reMatch bbRegex path with
  | none => .failure (path ++ " is not a valid path for a source on bitbucket.org")
  | some v =>
    let u := { u with path := capt v 2 }
    let isgit := bbIsGit u.path u.user
    let ishg := bbIsHg u.path u.user
    if u.scheme ≠ "" then
      let validgit := (validateVCSScheme u.scheme "git").getD false
      let validhg := (validateVCSScheme u.scheme "hg").getD false
      if isgit then
        if !validgit then
          .failure (u.scheme ++ " is not a valid scheme for accessing a git repository")
        else .ok (.maybeGitSource u)
      else if ishg then
        if !validhg then
          .failure (u.scheme ++ " is not a valid scheme for accessing an hg repository")
        else .ok (.maybeHgSource u)
      else if !validgit && !validhg then
        .failure (u.scheme ++ " is not a valid scheme for accessing either a git or hg repository")
      else
        -- "No other choice, make an option for both git and hg" (git first)
        .ok (.maybeSources [.maybeGitSource u, .maybeHgSource u])
    else
      let mb : List maybeSource :=
        (if !ishg then gitSchemes.map (fun sc => maybeSource.maybeGitSource { u with scheme := sc })
         else [])
        ++ (if !isgit then hgSchemes.map (fun sc => maybeSource.maybeHgSource { u with scheme := sc })
            else [])
      .ok (.maybeSources mb)

/-! ### gopkginMatcher -/

/-- `gopkginMatcher.deduceRoot`: returns `"gopkg.in/" + v[2]`.  Note that in
`gpinNewRegex` submatch 2 is the optional user segment, not the inner part of
the root as it is for the other matchers' patterns. -/
def gopkginDeduceRoot (path : String) : Except Err String :=
  match reMatch gpinNewRegex path with
  | none => .error (path ++ " is not a valid path for a source on gopkg.in")
  | some v => .ok ("gopkg.in/" ++ capt v 2)

/-- `gopkginMatcher.deduceSource`. -/
def gopkginDeduceSource (path : String) (u : URL) : SrcOutcome :=
  match reMatch gpinNewRegex path with
  | none => .failure (path ++ " is not a valid path for a source on gopkg.in")
  | some v =>
    if strContainsChar (capt v 4) '.' then
      .failure ("\"" ++ path ++ "\" is not a valid import path; gopkg.in only allows major versions (\""
        ++ takeBeforeDot (capt v 4) ++ "\" instead of \"" ++ capt v 4 ++ "\")")
    else if u.scheme ≠ "" then
      .failure "Specifying alternate schemes on gopkg.in imports is not permitted"
    else
      let u := { u with host := "github.com",
                        path := if capt v 2 = "" then "go-pkg/" ++ capt v 3
                                else capt v 2 ++ "/" ++ capt v 3 }
      .ok (.maybeSources (gitSchemes.map (fun sc => maybeSource.maybeGitSource { u with scheme := sc })))

/-! ### vcsExtensionMatcher -/

/-- `vcsExtensionMatcher.deduceRoot`: `simpleStringFuture(v[1])`. -/
def vcsExtensionDeduceRoot (path : String) : Except Err String :=
  match reMatch vcsExtensionRegex path with
  | none => .error (path ++ " contains no vcs extension hints for matching")
  | some v => .ok (capt v 1)

/-- The kind dispatch shared by the two inner `switch v[5]` statements of
`vcsExtensionMatcher.deduceSource` (both map git/bzr/hg to the corresponding
candidate constructor). -/
def mkExtSource (kind : String) (u : URL) : maybeSource :=
  if kind = "git" then .maybeGitSource u
  else if kind = "bzr" then .maybeBzrSource u
  else .maybeHgSource u

/-- `mb[k] = y` on a Go slice: writing past the end is an out-of-range panic
(`none`). -/
def writeAt : List maybeSource → Nat → maybeSource → Option (List maybeSource)
  | [], _, _ => none
  | _ :: xs, 0, y => some (y :: xs)
  | x :: xs, n + 1, y => (writeAt xs n y).map (x :: ·)

/-- `vcsExtensionMatcher.deduceSource`.  The scheme-enumeration loop is
translated exactly as written: `mb` is sized by the kind's scheme set
(`len(schemes)`), but the loop ranges over `gitSchemes`, assigning `mb[k]` for
`k = 0..3`; `capt v 1` (the root) always contains a `/`, so `SplitN(v[1],"/",2)`
yields the two halves taken here. -/
def vcsExtensionDeduceSource (path : String) (u : URL) : SrcOutcome :=
  match reMatch vcsExtensionRegex path with
  | none => .failure (path ++ " contains no vcs extension hints for matching")
  | some v =>
    let v5 := capt v 5
    if v5 = "git" || v5 = "hg" || v5 = "bzr" then
      let root := capt v 1
      let hostPart : String := String.mk (root.data.takeWhile (fun c => !(c == '/')))
      let pathPart : String := String.mk (root.data.drop (hostPart.length + 1))
      let u := { u with host := hostPart, path := pathPart }
      if u.scheme ≠ "" then
        match validateVCSScheme u.scheme v5 with
        | none => .crash "unsupported vcs type"
        | some false =>
          .failure (u.scheme ++ " is not a valid scheme for accessing " ++ v5
            ++ " repositories (path " ++ path ++ ")")
        | some true =>
          if v5 = "git" then .ok (.maybeGitSource u)
          else if v5 = "bzr" then .ok (.maybeBzrSource u)
          else .ok (.maybeHgSource u)
      else
        let schemes := if v5 = "git" then gitSchemes
                       else if v5 = "bzr" then bzrSchemes
                       else hgSchemes
        let init : List maybeSource := List.replicate schemes.length .nilSource
        match gitSchemes.enum.foldl
            (fun acc kv => acc.bind (fun mb => writeAt mb kv.1 (mkExtSource v5 { u with scheme := kv.2 })))
            (some init) with
        | none => .crash "runtime error: index out of range"
        | some mb => .ok (.maybeSources mb)
    else
      .failure ("unknown repository type: \"" ++ v5 ++ "\"")

/-! ### normalizeURI -/

/-- The validation string of `normalizeURI` / `deduceRemoteRepo`:
`u.Host + "/" + strings.TrimPrefix(u.Path, "/")` when a host is present, else
the bare path. -/
def validationPath (u : URL) : String :=
  if u.host ≠ "" then u.host ++ "/" ++ trimPrefixOnce u.path "/" else u.path

/-- `normalizeURI`.  `parseURL` stands for the stdlib `url.Parse` collaborator
(outside this repository); `none` models a parse error. -/
def normalizeURI (parseURL : String → Option URL) (path : String) : Except Err URL :=
  let pu : Except Err URL :=
    match reMatch scpSyntaxRe path with
    | some m => .ok { scheme := "ssh", user := capt m 1, host := capt m 2, path := "/" ++ capt m 3 }
    | none =>
      match parseURL path with
      | some u => .ok u
      | none => .error ("\"" ++ path ++ "\" is not a valid URI")
  match pu with
  | .error e => .error e
  | .ok u =>
    let p := validationPath u
    if (reMatch pathvld p).isSome then .ok u
    else .error ("\"" ++ p ++ "\" is not a valid import path")

/-! ### deduceFromPath -/

/-- The `matcher` interface of remote.go (root futures defunctionalized to the
string a `simpleStringFuture` yields, source factories to `SrcOutcome`). -/
structure matcher where
  deduceRoot : String → Except Err String
  deduceSource : String → URL → SrcOutcome

/-- The bitbucket matcher as a `matcher` value. -/
def bitbucketMatcher : matcher := ⟨bitbucketDeduceRoot, bitbucketDeduceSource⟩

/-- The gopkg.in matcher as a `matcher` value. -/
def gopkginMatcher : matcher := ⟨gopkginDeduceRoot, gopkginDeduceSource⟩

/-- Modelled from the spec: `sm.rootxt` is a radix tree built outside this
file (§4.3 of the spec); its `LongestPrefix(path)` returns the entry whose key
is the longest prefix of `path`, if any key is a prefix at all. -/
def rootxtLookup (rootxt : List (String × matcher)) (path : String) : Option matcher :=
  ((rootxt.filter (fun p => p.1.data.isPrefixOf path.data)).foldl
    (fun acc p =>
      match acc with
      | none => some p
      | some q => if q.1.length < p.1.length then some p else some q)
    none).map (fun p => p.2)

/-- Result of `deduceFromPath`, with the closures defunctionalized:
`matched root mb` stands for `(simpleStringFuture(root), sourceFutureFactory(mb), nil)`;
`vanity path` stands for the pair of network-backed futures built by the vanity
fallback (the only constructor whose consumption performs network activity);
`err e` is the `(nil, nil, err)` return; `crash` a runtime panic. -/
inductive DeduceOutcome where
  | err (e : Err)
  | crash (msg : String)
  | matched (root : String) (mb : maybeSource)
  | vanity (path : String)

/-- `SourceMgr.deduceFromPath`, stage by stage: normalize, registry
longest-prefix stage, vcs-extension stage, vanity fallback. -/
def deduceFromPath (parseURL : String → Option URL) (rootxt : List (String × matcher))
    (path : String) : DeduceOutcome :=
  match normalizeURI parseURL path with
  | .error e => .err e
  | .ok u =>
    match rootxtLookup rootxt path with
    | some m =>
      match m.deduceRoot path with
      | .error e => .err e
      | .ok root =>
        match m.deduceSource path u with
        | .failure e => .err e
        | .crash msg => .crash msg
        | .ok mb => .matched root mb
    | none =>
      match vcsExtensionDeduceRoot path with
      | .ok root =>
        match vcsExtensionDeduceSource path u with
        | .failure e => .err e
        | .crash msg => .crash msg
        | .ok mb => .matched root mb
      | .error _ => .vanity path

/-! ### The future harness -/

/-- Resolution state of a goroutine-plus-channel future. -/
inductive FutState (α : Type) where
  | pending
  | resolved (v : α)

/-- A future: the eventual `(value, error)` pair guarded by a one-shot channel
close, plus a count of how many times its backing unit has executed. -/
structure FutureCell (α : Type) where
  state : FutState α
  runs : Nat

/-- A freshly created future: channel open, no unit has run. -/
def FutureCell.new {α : Type} : FutureCell α := ⟨.pending, 0⟩

/-- The single background unit finishing: it stores the computed pair and
closes the channel.  (Each future's unit is spawned exactly once; a second
close of the channel would panic in Go, so a resolved cell is left as is.) -/
def FutureCell.complete {α : Type} (f : FutureCell α) (v : α) : FutureCell α :=
  match f.state with
  | .pending => ⟨.resolved v, f.runs + 1⟩
  | .resolved w => ⟨.resolved w, f.runs⟩

/-- A reader invoking the future: `<-c` then return the captured pair.  After
resolution it yields the cached value and leaves the cell untouched (no
recomputation); before resolution the reader blocks (`none`). -/
def FutureCell.read {α : Type} (f : FutureCell α) : Option α × FutureCell α :=
  match f.state with
  | .resolved v => (some v, f)
  | .pending => (none, f)

/-- `n` successive readers of the same future. -/
def FutureCell.readN {α : Type} (f : FutureCell α) : Nat → List (Option α) × FutureCell α
  | 0 => ([], f)
  | n + 1 =>
    let r := f.read
    let rest := r.2.readN n
    (r.1 :: rest.1, rest.2)

/-- `sourceFutureFactory(mb)` applied to `(cachedir, an)`: spawns the one
background unit, which computes `mb.try(cachedir, an)` once and closes the
channel; the returned future reads the captured pair.  `tryFn` stands for the
external "try" collaborator (outside this layer). -/
def sourceFutureFactory
    (tryFn : maybeSource → String → ProjectAnalyzer → Option source × Option Err)
    (mb : maybeSource) (cachedir : String) (an : ProjectAnalyzer) :
    FutureCell (Option source × Option Err) :=
  FutureCell.complete FutureCell.new (tryFn mb cachedir an)

/-! ### The vanity-path source future -/

/-- Observable outcome of the vanity source unit: the `(src, err)` pair its
future resolves with, and whether `m.try` was invoked. -/
structure VanitySrcRun where
  src : Option source
  err : Option Err
  tried : Bool
deriving DecidableEq, Repr

/-- The source closure of `deduceFromPath`'s vanity stage (remote.go:569-604),
given the resolved result of the root future.  Go scoping note, translated
faithfully: inside the goroutine, `_, err := root()` short-declares a NEW `err`
shadowing the closure-level `var err error`; the later `src, err = m.try(...)`
and `err = fmt.Errorf(...)` assignments therefore hit the shadowed goroutine
local, while the future returned to the caller reads the closure-level `err`,
which nothing ever assigns. -/
def vanitySourceRun
    (tryFn : maybeSource → String → ProjectAnalyzer → Option source × Option Err)
    (rootRes : String × Option Err) (vcs : String) (ru : URL)
    (cachedir : String) (an : ProjectAnalyzer) : VanitySrcRun :=
  -- closure level: var src source; var err error
  let srcOuter : Option source := none
  let errOuter : Option Err := none
  -- goroutine: _, err := root()  (fresh, shadowing err)
  let errInner : Option Err := rootRes.2
  if errInner.isSome then
    -- early return: the future later yields the closure-level pair
    { src := srcOuter, err := errOuter, tried := false }
  else
    let m : Option maybeSource :=
      if vcs = "git" then some (.maybeGitSource ru)
      else if vcs = "bzr" then some (.maybeBzrSource ru)
      else if vcs = "hg" then some (.maybeHgSource ru)
      else none
    match m with
    | some mb =>
      -- src, err = m.try(cachedir, an): `src` is closure-level, `err` the
      -- shadowed goroutine local
      let r := tryFn mb cachedir an
      { src := r.1, err := errOuter, tried := true }
    | none =>
      -- err = fmt.Errorf("unsupported vcs type %s", vcs): shadowed local again
      { src := srcOuter, err := errOuter, tried := false }

/-! ### C1 -/

/-- C1 (code bug): the claim says the gopkg.in `deduceRoot` returns
`"gopkg.in/"` followed by the entire matched root including the version
suffix.  In `gpinNewRegex`, submatch 2 is the optional user segment (the whole
root is submatch 1), so `"gopkg.in/" + v[2]` evaluates to `"gopkg.in/"` for
`gopkg.in/yaml.v2` and to `"gopkg.in/user"` for `gopkg.in/user/pkg.v1` —
not the roots the claim (and the spec's own examples) require. -/
theorem gopkgin_deduceRoot_drops_package_and_version :
    gopkginDeduceRoot "gopkg.in/yaml.v2" = .ok "gopkg.in/"
    ∧ gopkginDeduceRoot "gopkg.in/user/pkg.v1" = .ok "gopkg.in/user"
    ∧ ("gopkg.in/" ≠ "gopkg.in/yaml.v2" ∧ "gopkg.in/user" ≠ "gopkg.in/user/pkg.v1") :=
  ⟨rfl, rfl, by decide⟩

/-! ### C2 -/

/-- C2 (code bug): when the vanity root future resolves with an error, the
claim says any source future surfaces that identical error.  Because
`_, err := root()` shadows the closure-level `err`, the source future instead
resolves with `(nil, nil)`: the root error is swallowed.  (No candidate try is
performed — `tried = false` — so only the error-identity half fails.) -/
theorem vanity_source_swallows_root_error :
    vanitySourceRun (fun _ _ _ => (some ⟨1⟩, none))
      ("", some "unable to deduce repository and source type for: \"example.com/foo\"")
      "git" ⟨"https", "", "example.com", "/foo"⟩ "cachedir" ⟨0⟩
      = { src := none, err := none, tried := false }
    ∧ (some "unable to deduce repository and source type for: \"example.com/foo\"" : Option Err)
        ≠ none :=
  ⟨rfl, by decide⟩

/-! ### C3 -/

/-- C3 (code bug): the claim says the schemeless vcs-extension enumeration
yields one candidate per scheme of the matched kind's scheme set, in that
set's order, each carrying a scheme of that set.  The loop instead ranges over
`gitSchemes` while `mb` is sized by the matched kind's set: for `.hg`
(3 schemes) the fourth iteration writes `mb[3]` out of range — a runtime
panic; for `.bzr` the four candidates carry the git schemes
(`ssh` and `git` are not bzr schemes, and the bzr priority order is not
respected). -/
theorem vcsExtension_enumeration_uses_git_schemes :
    vcsExtensionDeduceSource "somehost.com/repo.hg" ⟨"", "", "", ""⟩
      = .crash "runtime error: index out of range"
    ∧ vcsExtensionDeduceSource "somehost.com/repo.bzr" ⟨"", "", "", ""⟩
      = .ok (.maybeSources
          [.maybeBzrSource ⟨"https", "", "somehost.com", "repo.bzr"⟩,
           .maybeBzrSource ⟨"ssh", "", "somehost.com", "repo.bzr"⟩,
           .maybeBzrSource ⟨"git", "", "somehost.com", "repo.bzr"⟩,
           .maybeBzrSource ⟨"http", "", "somehost.com", "repo.bzr"⟩])
    ∧ (bzrSchemes.contains "ssh" = false ∧ bzrSchemes.contains "git" = false) :=
  ⟨rfl, rfl, by decide⟩

/-! ### C5 -/

/-- C5 (code bug): the claim says a matched `.svn` path yields subversion
candidates, the "unknown repository type" error firing only for suffixes
outside the four.  The regex does match `.svn` (the kind is read from the
match), but `deduceSource`'s switch omits `"svn"`, so the default arm makes it
a hard "unknown repository type" error — the only value that can reach it. -/
theorem vcsExtension_svn_hits_unknown_type :
    vcsExtensionDeduceRoot "somehost.com/repo.svn" = .ok "somehost.com/repo.svn"
    ∧ vcsExtensionDeduceSource "somehost.com/repo.svn" ⟨"", "", "", ""⟩
        = .failure "unknown repository type: \"svn\"" :=
  ⟨rfl, rfl⟩

/-! ### C4 -/

/-- C4 counterexample: with explicit scheme `git` (valid for git, not for hg)
and no git/hg hint, `bitbucketMatcher.deduceSource` succeeds and produces an
hg candidate anyway — the claim's "an hg candidate only if the scheme is valid
for hg" is false on the code. -/
theorem bitbucket_hg_candidate_despite_invalid_scheme :
    bitbucketDeduceSource "bitbucket.org/user/repo" ⟨"git", "", "", ""⟩
      = .ok (.maybeSources
          [.maybeGitSource ⟨"git", "", "", "user/repo"⟩,
           .maybeHgSource ⟨"git", "", "", "user/repo"⟩])
    ∧ hgSchemes.contains "git" = false :=
  ⟨rfl, by decide⟩

/-- C4 as amended: for a bitbucket path with explicit scheme and no git/hg
hint, deduction succeeds iff the scheme belongs to the git or hg scheme set,
and on success it produces exactly one git candidate and one hg candidate
(both kinds, regardless of per-kind validity of the scheme), git before hg,
both carrying the caller's URL. -/
theorem bitbucket_explicit_scheme_ambiguous (path : String) (u : URL) (v : Caps)
    (hm : reMatch bbRegex path = some v) (hs : u.scheme ≠ "")
    (hgit : bbIsGit (capt v 2) u.user = false) (hhg : bbIsHg (capt v 2) u.user = false) :
    ((gitSchemes.contains u.scheme || hgSchemes.contains u.scheme) = false →
       bitbucketDeduceSource path u
         = .failure (u.scheme ++ " is not a valid scheme for accessing either a git or hg repository"))
    ∧ ((gitSchemes.contains u.scheme || hgSchemes.contains u.scheme) = true →
       bitbucketDeduceSource path u
         = .ok (.maybeSources
             [.maybeGitSource { u with path := capt v 2 },
              .maybeHgSource { u with path := capt v 2 }])) := by
  constructor
  · intro hv
    simp only [Bool.or_eq_false_iff] at hv
    have h1 := hv.1
    have h2 := hv.2
    simp at h1 h2
    simp [bitbucketDeduceSource, hm, hs, hgit, hhg, validateVCSScheme, h1, h2]
  · intro hv
    simp at hv
    rcases hv with h1 | h1 <;>
      simp [bitbucketDeduceSource, hm, hs, hgit, hhg, validateVCSScheme, h1]

/-- C4 witness: scheme `https` (valid for both kinds), no hint — one git and
one hg candidate, git first. -/
theorem bitbucket_explicit_scheme_ambiguous_witness :
    bitbucketDeduceSource "bitbucket.org/user/repo" ⟨"https", "", "", ""⟩
      = .ok (.maybeSources
          [.maybeGitSource ⟨"https", "", "", "user/repo"⟩,
           .maybeHgSource ⟨"https", "", "", "user/repo"⟩]) :=
  (bitbucket_explicit_scheme_ambiguous "bitbucket.org/user/repo" ⟨"https", "", "", ""⟩ _
    rfl (by decide) rfl rfl).2 rfl

/-! ### C7 -/

/-- C7: for a matched bitbucket path with no explicit scheme, the git hint
(`.git` suffix on the repo part, or `git` URL user) restricts the candidate
list to git candidates (one per git scheme, in git-scheme order); the hg hint
restricts it to hg candidates; with no hint the list is the git candidates
followed by the hg candidates — both kinds, every git candidate preceding
every hg candidate. -/
theorem bitbucket_hint_filtering (path : String) (u : URL) (v : Caps)
    (hm : reMatch bbRegex path = some v) (hs : u.scheme = "") :
    (bbIsGit (capt v 2) u.user = true → bbIsHg (capt v 2) u.user = false →
       bitbucketDeduceSource path u
         = .ok (.maybeSources (gitSchemes.map (fun sc =>
             maybeSource.maybeGitSource { scheme := sc, user := u.user, host := u.host, path := capt v 2 }))))
    ∧ (bbIsHg (capt v 2) u.user = true → bbIsGit (capt v 2) u.user = false →
       bitbucketDeduceSource path u
         = .ok (.maybeSources (hgSchemes.map (fun sc =>
             maybeSource.maybeHgSource { scheme := sc, user := u.user, host := u.host, path := capt v 2 }))))
    ∧ (bbIsGit (capt v 2) u.user = false → bbIsHg (capt v 2) u.user = false →
       bitbucketDeduceSource path u
         = .ok (.maybeSources
             (gitSchemes.map (fun sc =>
                maybeSource.maybeGitSource { scheme := sc, user := u.user, host := u.host, path := capt v 2 })
              ++ hgSchemes.map (fun sc =>
                maybeSource.maybeHgSource { scheme := sc, user := u.user, host := u.host, path := capt v 2 })))) := by
  refine ⟨fun h1 h2 => ?_, fun h1 h2 => ?_, fun h1 h2 => ?_⟩ <;>
    simp [bitbucketDeduceSource, hm, hs, h1, h2]

/-- C7 witness: `.git` suffix gives git-only candidates, `.hg` hg-only, no
hint both (git first). -/
theorem bitbucket_hint_filtering_witness :
    bitbucketDeduceSource "bitbucket.org/user/repo.git" ⟨"", "", "", ""⟩
      = .ok (.maybeSources
          [.maybeGitSource ⟨"https", "", "", "user/repo.git"⟩,
           .maybeGitSource ⟨"ssh", "", "", "user/repo.git"⟩,
           .maybeGitSource ⟨"git", "", "", "user/repo.git"⟩,
           .maybeGitSource ⟨"http", "", "", "user/repo.git"⟩])
    ∧ bitbucketDeduceSource "bitbucket.org/user/repo.hg" ⟨"", "", "", ""⟩
      = .ok (.maybeSources
          [.maybeHgSource ⟨"https", "", "", "user/repo.hg"⟩,
           .maybeHgSource ⟨"ssh", "", "", "user/repo.hg"⟩,
           .maybeHgSource ⟨"http", "", "", "user/repo.hg"⟩])
    ∧ bitbucketDeduceSource "bitbucket.org/user/repo" ⟨"", "", "", ""⟩
      = .ok (.maybeSources
          [.maybeGitSource ⟨"https", "", "", "user/repo"⟩,
           .maybeGitSource ⟨"ssh", "", "", "user/repo"⟩,
           .maybeGitSource ⟨"git", "", "", "user/repo"⟩,
           .maybeGitSource ⟨"http", "", "", "user/repo"⟩,
           .maybeHgSource ⟨"https", "", "", "user/repo"⟩,
           .maybeHgSource ⟨"ssh", "", "", "user/repo"⟩,
           .maybeHgSource ⟨"http", "", "", "user/repo"⟩]) :=
  ⟨(bitbucket_hint_filtering "bitbucket.org/user/repo.git" ⟨"", "", "", ""⟩ _ rfl rfl).1 rfl rfl,
   (bitbucket_hint_filtering "bitbucket.org/user/repo.hg" ⟨"", "", "", ""⟩ _ rfl rfl).2.1 rfl rfl,
   (bitbucket_hint_filtering "bitbucket.org/user/repo" ⟨"", "", "", ""⟩ _ rfl rfl).2.2 rfl rfl⟩

/-! ### C8 -/

/-- C8: for every path accepted by `gpinNewRegex`: a captured version suffix
with an embedded dot is rejected; otherwise any explicit scheme is rejected;
otherwise the candidates' clone URLs have host `github.com` and path
`user/pkg` (user segment present) or `go-pkg/pkg` (absent), one git candidate
per git scheme. -/
theorem gopkgin_deduceSource_validation (path : String) (u : URL) (v : Caps)
    (hm : reMatch gpinNewRegex path = some v) :
    (strContainsChar (capt v 4) '.' = true →
       gopkginDeduceSource path u
         = .failure ("\"" ++ path ++ "\" is not a valid import path; gopkg.in only allows major versions (\""
             ++ takeBeforeDot (capt v 4) ++ "\" instead of \"" ++ capt v 4 ++ "\")"))
    ∧ (strContainsChar (capt v 4) '.' = false → u.scheme ≠ "" →
       gopkginDeduceSource path u
         = .failure "Specifying alternate schemes on gopkg.in imports is not permitted")
    ∧ (strContainsChar (capt v 4) '.' = false → u.scheme = "" →
       gopkginDeduceSource path u
         = .ok (.maybeSources (gitSchemes.map (fun sc =>
             maybeSource.maybeGitSource
               { scheme := sc, user := u.user, host := "github.com",
                 path := if capt v 2 = "" then "go-pkg/" ++ capt v 3
                         else capt v 2 ++ "/" ++ capt v 3 })))) := by
  refine ⟨fun hdot => ?_, fun hdot hsch => ?_, fun hdot hsch => ?_⟩
  · simp [gopkginDeduceSource, hm, hdot]
  · simp [gopkginDeduceSource, hm, hdot, hsch]
  · simp [gopkginDeduceSource, hm, hdot, hsch]

/-- C8 witness: `gopkg.in/pkg.v1.2` is rejected for its dotted version;
a scheme on `gopkg.in/yaml.v2` is rejected; `gopkg.in/yaml.v2` is backed by
`github.com/go-pkg/yaml` and `gopkg.in/user/pkg.v1` by `github.com/user/pkg`. -/
theorem gopkgin_deduceSource_validation_witness :
    gopkginDeduceSource "gopkg.in/pkg.v1.2" ⟨"", "", "", ""⟩
      = .failure "\"gopkg.in/pkg.v1.2\" is not a valid import path; gopkg.in only allows major versions (\"v1\" instead of \"v1.2\")"
    ∧ gopkginDeduceSource "gopkg.in/yaml.v2" ⟨"https", "", "", ""⟩
      = .failure "Specifying alternate schemes on gopkg.in imports is not permitted"
    ∧ gopkginDeduceSource "gopkg.in/yaml.v2" ⟨"", "", "", ""⟩
      = .ok (.maybeSources
          [.maybeGitSource ⟨"https", "", "github.com", "go-pkg/yaml"⟩,
           .maybeGitSource ⟨"ssh", "", "github.com", "go-pkg/yaml"⟩,
           .maybeGitSource ⟨"git", "", "github.com", "go-pkg/yaml"⟩,
           .maybeGitSource ⟨"http", "", "github.com", "go-pkg/yaml"⟩])
    ∧ gopkginDeduceSource "gopkg.in/user/pkg.v1" ⟨"", "", "", ""⟩
      = .ok (.maybeSources
          [.maybeGitSource ⟨"https", "", "github.com", "user/pkg"⟩,
           .maybeGitSource ⟨"ssh", "", "github.com", "user/pkg"⟩,
           .maybeGitSource ⟨"git", "", "github.com", "user/pkg"⟩,
           .maybeGitSource ⟨"http", "", "github.com", "user/pkg"⟩]) :=
  ⟨(gopkgin_deduceSource_validation "gopkg.in/pkg.v1.2" ⟨"", "", "", ""⟩ _ rfl).1 rfl,
   (gopkgin_deduceSource_validation "gopkg.in/yaml.v2" ⟨"https", "", "", ""⟩ _ rfl).2.1 rfl (by decide),
   (gopkgin_deduceSource_validation "gopkg.in/yaml.v2" ⟨"", "", "", ""⟩ _ rfl).2.2 rfl rfl,
   (gopkgin_deduceSource_validation "gopkg.in/user/pkg.v1" ⟨"", "", "", ""⟩ _ rfl).2.2 rfl rfl⟩

/-! ### C9 -/

/-- Reads of a resolved future all return the cached pair and leave the cell
(in particular its run count) untouched. -/
theorem FutureCell.readN_resolved {α : Type} (v : α) (r n : Nat) :
    FutureCell.readN ⟨.resolved v, r⟩ n
      = (List.replicate n (some v), (⟨.resolved v, r⟩ : FutureCell α)) := by
  induction n with
  | zero => rfl
  | succ n ih => simp [FutureCell.readN, FutureCell.read, ih, List.replicate]

/-- C9: a future produced by `sourceFutureFactory` is memoized — after its
backing unit has completed, every reader (any number of them, in any order)
receives the identical `(source, error)` pair, namely the single `try` result,
and reading never re-triggers the computation: the unit has run exactly once
and still has run exactly once after `n` reads. -/
theorem sourceFutureFactory_memoized
    (tryFn : maybeSource → String → ProjectAnalyzer → Option source × Option Err)
    (mb : maybeSource) (cachedir : String) (an : ProjectAnalyzer) (n : Nat) :
    ((sourceFutureFactory tryFn mb cachedir an).readN n).1
        = List.replicate n (some (tryFn mb cachedir an))
    ∧ ((sourceFutureFactory tryFn mb cachedir an).readN n).2
        = sourceFutureFactory tryFn mb cachedir an
    ∧ (sourceFutureFactory tryFn mb cachedir an).runs = 1
    ∧ (((sourceFutureFactory tryFn mb cachedir an).readN n).2).runs = 1 := by
  have h : sourceFutureFactory tryFn mb cachedir an
      = ⟨.resolved (tryFn mb cachedir an), 1⟩ := rfl
  rw [h, FutureCell.readN_resolved]
  exact ⟨rfl, rfl, rfl, rfl⟩

/-! ### C10 -/

/-- C10: an input matching the SCP-like pattern `user@host:rest` is normalized
to a URI with scheme `ssh`, the given user and host, and path `/rest`; that
URI is then validated against the generic import-path grammar (`pathvld`),
a grammar error being returned when it does not match.  The `parseURL`
(stdlib `url.Parse`) collaborator is never consulted on this branch. -/
theorem normalizeURI_scp (parseURL : String → Option URL) (path : String) (m : Caps)
    (hm : reMatch scpSyntaxRe path = some m) :
    normalizeURI parseURL path =
      (let u : URL := { scheme := "ssh", user := capt m 1, host := capt m 2,
                        path := "/" ++ capt m 3 }
       if (reMatch pathvld (validationPath u)).isSome then .ok u
       else .error ("\"" ++ validationPath u ++ "\" is not a valid import path")) := by
  simp [normalizeURI, hm]

/-- C10 witness: `git@example.com:user/repo` normalizes to scheme `ssh`,
host `example.com`, path `/user/repo`, whatever `url.Parse` would do. -/
theorem normalizeURI_scp_witness :
    normalizeURI (fun _ => none) "git@example.com:user/repo"
      = .ok ⟨"ssh", "git", "example.com", "/user/repo"⟩ := by
  rw [normalizeURI_scp (fun _ => none) "git@example.com:user/repo" _ rfl]
  rfl

/-! ### C6 -/

/-- C6: stage commitment of `deduceFromPath`.  Once the registry
(longest-prefix) stage selects a matcher, a failure of its `deduceRoot` or
`deduceSource` is the final result — the extension and vanity stages are never
consulted; likewise, once the extension matcher's root pattern matches, a
`deduceSource` failure is final.  The result of such a synchronous failure is
the `err` outcome, never the `vanity` outcome — the only constructor whose
consumption involves network activity — so no network call occurs. -/
theorem deduceFromPath_stage_commitment (parseURL : String → Option URL)
    (rootxt : List (String × matcher)) (path : String) (u : URL)
    (hn : normalizeURI parseURL path = .ok u) :
    (∀ m, rootxtLookup rootxt path = some m →
       (∀ e, m.deduceRoot path = .error e → deduceFromPath parseURL rootxt path = .err e)
       ∧ (∀ r e, m.deduceRoot path = .ok r → m.deduceSource path u = .failure e →
            deduceFromPath parseURL rootxt path = .err e))
    ∧ (rootxtLookup rootxt path = none →
       ∀ r e, vcsExtensionDeduceRoot path = .ok r → vcsExtensionDeduceSource path u = .failure e →
         deduceFromPath parseURL rootxt path = .err e)
    ∧ (∀ e p2, DeduceOutcome.err e ≠ DeduceOutcome.vanity p2) := by
  refine ⟨fun m hl => ⟨fun e he => ?_, fun r e hr hs => ?_⟩,
          fun hl r e hr hs => ?_, fun e p2 => by simp⟩
  · simp [deduceFromPath, hn, hl, he]
  · simp [deduceFromPath, hn, hl, hr, hs]
  · simp [deduceFromPath, hn, hl, hr, hs]

/-- C6 witness: a registry hit whose `deduceRoot` fails, a registry hit whose
`deduceSource` fails (invalid scheme), and an extension match whose
`deduceSource` fails, are each final `err` results. -/
theorem deduceFromPath_stage_commitment_witness :
    deduceFromPath (fun s => some ⟨"", "", "", s⟩) [("bitbucket.org", bitbucketMatcher)]
        "bitbucket.org/justuser"
      = .err "bitbucket.org/justuser is not a valid path for a source on bitbucket.org"
    ∧ deduceFromPath (fun s => some ⟨"svn", "", "", s⟩) [("bitbucket.org", bitbucketMatcher)]
        "bitbucket.org/user/repo.git"
      = .err "svn is not a valid scheme for accessing a git repository"
    ∧ deduceFromPath (fun s => some ⟨"svn", "", "", s⟩) [] "somehost.com/repo.bzr"
      = .err "svn is not a valid scheme for accessing bzr repositories (path somehost.com/repo.bzr)" :=
  ⟨((deduceFromPath_stage_commitment (fun s => some ⟨"", "", "", s⟩)
       [("bitbucket.org", bitbucketMatcher)] "bitbucket.org/justuser"
       ⟨"", "", "", "bitbucket.org/justuser"⟩ rfl).1 bitbucketMatcher rfl).1 _ rfl,
   ((deduceFromPath_stage_commitment (fun s => some ⟨"svn", "", "", s⟩)
       [("bitbucket.org", bitbucketMatcher)] "bitbucket.org/user/repo.git"
       ⟨"svn", "", "", "bitbucket.org/user/repo.git"⟩ rfl).1 bitbucketMatcher rfl).2 _ _ rfl rfl,
   (deduceFromPath_stage_commitment (fun s => some ⟨"svn", "", "", s⟩) [] "somehost.com/repo.bzr"
       ⟨"svn", "", "", "somehost.com/repo.bzr"⟩ rfl).2.1 rfl _ _ rfl rfl⟩

/-- C9 witness: three readers of one resolved source future observe the same
pair, and the backing unit has run exactly once. -/
theorem sourceFutureFactory_memoized_witness :
    ((sourceFutureFactory (fun _ _ _ => (some ⟨7⟩, none)) maybeSource.nilSource "cache" ⟨0⟩).readN 3).1
      = List.replicate 3 (some (some ⟨7⟩, none))
    ∧ (sourceFutureFactory (fun _ _ _ => (some ⟨7⟩, none)) maybeSource.nilSource "cache" ⟨0⟩).runs = 1 :=
  ⟨(sourceFutureFactory_memoized (fun _ _ _ => (some ⟨7⟩, none)) maybeSource.nilSource "cache" ⟨0⟩ 3).1,
   (sourceFutureFactory_memoized (fun _ _ _ => (some ⟨7⟩, none)) maybeSource.nilSource "cache" ⟨0⟩ 3).2.2.1⟩
